import Mathlib

/-!
Verification development for the weather-bot repository.

Shallow embedding of the core pipeline: the Weather Client
(`weather_service.py`), the cache/analytics persistence layer
(`database.py`), the location/format helpers (`utils.py`) and the request
orchestration (`main.py`, `WeatherBot.send_weather_info`).

Modelling conventions:
* Provider JSON payloads are `JValue` trees; Python numbers are embedded as
  rationals (`ℚ`), which makes the arithmetic of the source exact where the
  source uses binary floats (noted where relevant).
* Python dynamic faults (`AttributeError`, `TypeError`, `ValueError`,
  `IndexError`) are modelled with the `Except PyExn` monad: a computation
  returning `.error e` models the Python code raising `e` at that point.
* `datetime.now()` and the surrounding chat transport are externalized as
  explicit parameters.
-/

namespace WeatherBot

/-- A JSON value as decoded by `response.json()` in `weather_service.py`. -/
inductive JValue where
  | null : JValue
  | bool (b : Bool) : JValue
  | num (q : ℚ) : JValue
  | str (s : String) : JValue
  | arr (elems : List JValue) : JValue
  | obj (fields : List (String × JValue)) : JValue

/-- Python runtime faults that the embedded code can raise. -/
inductive PyExn where
  | attributeError : PyExn
  | typeError : PyExn
  | valueError : PyExn
  | indexError : PyExn
deriving DecidableEq, Repr

/-- Python truthiness (`if not data:`) of a JSON value: `None`, `False`, `0`,
`""`, `[]` and the empty dict are falsy, everything else is truthy. -/
def jTruthy : JValue → Bool
  | .null => false
  | .bool b => b
  | .num q => q != 0
  | .str s => s != ""
  | .arr l => !l.isEmpty
  | .obj l => !l.isEmpty

/-- Python `v.get(k, default)`: only dictionaries have `.get`; calling it on
any other value raises `AttributeError`. On a dictionary it is total (first
binding of the key wins, `default` when the key is absent). -/
def jGet (v : JValue) (k : String) (default : JValue) : Except PyExn JValue :=
  match v with
  | .obj fields => .ok (((fields.find? (fun p => p.1 == k)).map (·.2)).getD default)
  | _ => .error .attributeError

/-- Python `v[i]` with a non-negative integer index: lists and strings index
(raising `IndexError` out of bounds), everything else raises (`KeyError` on a
dict with string keys, `TypeError` otherwise; both folded into one model
error here, since the source never distinguishes them). -/
def jIndex (v : JValue) (i : Nat) : Except PyExn JValue :=
  match v with
  | .arr l =>
    match l.get? i with
    | some e => .ok e
    | none => .error .indexError
  | .str s =>
    match s.data.get? i with
    | some c => .ok (.str (String.mk [c]))
    | none => .error .indexError
  | _ => .error .typeError

/-- Python `len(v)`: sized for lists, strings and dicts, `TypeError` otherwise. -/
def jLen (v : JValue) : Except PyExn Nat :=
  match v with
  | .arr l => .ok l.length
  | .str s => .ok s.length
  | .obj l => .ok l.length
  | _ => .error .typeError

/-- Python `for x in v`: lists iterate elements, strings iterate one-character
strings, dicts iterate their keys; other values raise `TypeError`. -/
def jIter (v : JValue) : Except PyExn (List JValue) :=
  match v with
  | .arr l => .ok l
  | .str s => .ok (s.data.map (fun c => .str (String.mk [c])))
  | .obj l => .ok (l.map (fun p => .str p.1))
  | _ => .error .typeError

/-- The Python numeric reading of a JSON value: numbers are numbers and bools
are the integers 0/1; everything else is non-numeric. -/
def asNum? : JValue → Option ℚ
  | .num q => some q
  | .bool b => some (if b then 1 else 0)
  | _ => none

/-- Python `int(q)`: truncation toward zero. -/
def truncRat (q : ℚ) : Int :=
  if 0 ≤ q then Rat.floor q else -(Rat.floor (-q))

/-- Display rendering of a JSON value inside an f-string (`str(v)`).
Display-only helper: the claims never inspect these renderings, so compound
values use an abbreviated form. -/
def pyStrOf : JValue → String
  | .null => "None"
  | .bool true => "True"
  | .bool false => "False"
  | .num q => if q.den = 1 then toString q.num else toString q.num ++ "/" ++ toString q.den
  | .str s => s
  | .arr _ => "[...]"
  | .obj _ => "[...]"

/-- Round half to even at the integer grid, Python `round(q)`. -/
def roundHalfEven (q : ℚ) : Int :=
  let f := Rat.floor q
  if q - f < 1/2 then f
  else if (1:ℚ)/2 < q - f then f + 1
  else if f % 2 = 0 then f else f + 1

/-- Python `round(q, 2)`. -/
def round2 (q : ℚ) : ℚ := (roundHalfEven (q * 100) : ℚ) / 100

/-- One decimal digit rendering of a rational, Python `f"{q:.1f}"`. -/
def fmt1dec (q : ℚ) : String :=
  let n : Int := roundHalfEven (q * 10)
  let sign := if n < 0 then "-" else ""
  let m := n.natAbs
  sign ++ toString (m / 10) ++ "." ++ toString (m % 10)

/-! ### Time parsing and formatting (`datetime.strptime` / `strftime`) -/

/-- Numeric value of a digit string. -/
def digitsToNat (cs : List Char) : Nat := cs.foldl (fun a c => 10 * a + (c.toNat - 48)) 0

/-- A parsed `datetime`, to minute precision, as produced by
`datetime.strptime(s, "%Y-%m-%d %H:%M")`. -/
structure PyDateTime where
  year : Nat
  month : Nat
  day : Nat
  hour : Nat
  minute : Nat
deriving DecidableEq, Repr

/-- A parsed date, as produced by `datetime.strptime(s, "%Y-%m-%d")`. -/
structure PyDate where
  year : Nat
  month : Nat
  day : Nat
deriving DecidableEq, Repr

/-- `datetime.strptime(v, "%Y-%m-%d %H:%M")`: raises `TypeError` on a
non-string argument and `ValueError` when the string does not match the
format. Modelled with fixed field widths (4-2-2 2:2) and calendar range
checks; the source only ever receives canonical provider timestamps or
malformed/empty strings, for which this is exact. -/
def strptime_ymd_hm (v : JValue) : Except PyExn PyDateTime :=
  match v with
  | .str s =>
    match s.data with
    | [y1, y2, y3, y4, '-', m1, m2, '-', d1, d2, ' ', h1, h2, ':', n1, n2] =>
      if [y1, y2, y3, y4, m1, m2, d1, d2, h1, h2, n1, n2].all Char.isDigit then
        let mo := digitsToNat [m1, m2]
        let da := digitsToNat [d1, d2]
        let ho := digitsToNat [h1, h2]
        let mi := digitsToNat [n1, n2]
        if 1 ≤ mo ∧ mo ≤ 12 ∧ 1 ≤ da ∧ da ≤ 31 ∧ ho ≤ 23 ∧ mi ≤ 59 then
          .ok ⟨digitsToNat [y1, y2, y3, y4], mo, da, ho, mi⟩
        else .error .valueError
      else .error .valueError
    | _ => .error .valueError
  | _ => .error .typeError

/-- `datetime.strptime(v, "%Y-%m-%d")` under a bare `try/except`: any raise
(non-string argument or malformed string) is observed as `none`. -/
def strptime_ymd (v : JValue) : Option PyDate :=
  match v with
  | .str s =>
    match s.data with
    | [y1, y2, y3, y4, '-', m1, m2, '-', d1, d2] =>
      if [y1, y2, y3, y4, m1, m2, d1, d2].all Char.isDigit then
        let mo := digitsToNat [m1, m2]
        let da := digitsToNat [d1, d2]
        if 1 ≤ mo ∧ mo ≤ 12 ∧ 1 ≤ da ∧ da ≤ 31 then
          some ⟨digitsToNat [y1, y2, y3, y4], mo, da⟩
        else none
      else none
    | _ => none
  | _ => none

/-- Zero-padded two-digit rendering. -/
def pad2 (n : Nat) : String := if n < 10 then "0" ++ toString n else toString n

/-- `strftime("%I %p")`: 12-hour clock (zero-padded) plus AM/PM. -/
def strf_I_p (t : PyDateTime) : String :=
  let h12 := if t.hour % 12 = 0 then 12 else t.hour % 12
  pad2 h12 ++ " " ++ (if t.hour < 12 then "AM" else "PM")

/-- Abbreviated month names for `strftime("%b")`. -/
def monthAbbrev : List String :=
  ["Jan", "Feb", "Mar", "Apr", "May", "Jun", "Jul", "Aug", "Sep", "Oct", "Nov", "Dec"]

/-- Abbreviated weekday names indexed by Zeller value (0 = Saturday). -/
def zellerDayAbbrev : List String := ["Sat", "Sun", "Mon", "Tue", "Wed", "Thu", "Fri"]

/-- Weekday of a Gregorian date by Zeller's congruence (0 = Saturday). -/
def zeller (d : PyDate) : Nat :=
  let m := if d.month ≤ 2 then d.month + 12 else d.month
  let y := if d.month ≤ 2 then d.year - 1 else d.year
  let k := y % 100
  let j := y / 100
  (d.day + (13 * (m + 1)) / 5 + k + k / 4 + j / 4 + 5 * j) % 7

/-- `strftime("%a, %b %d")` on a parsed date. -/
def strf_a_b_d (d : PyDate) : String :=
  (zellerDayAbbrev.getD (zeller d) "") ++ ", " ++
    (monthAbbrev.getD (d.month - 1) "") ++ " " ++ pad2 d.day

/-! ### The Weather Client (`weather_service.py`) -/

/-- Outcome of the HTTP exchange inside `WeatherService._make_request`:
either a transport-level fault (timeout, DNS failure, ...) raised by the
session, or a response with a status code and decoded JSON body. -/
inductive TransportResult where
  | exn : TransportResult
  | resp (status : Nat) (body : JValue) : TransportResult

/-- `WeatherService._make_request`: returns the decoded body on HTTP 200,
`None` on any other status, and `None` again when the exchange raises
(the `except` clause catches every exception). -/
def make_request : TransportResult → Option JValue
  | .exn => none
  | .resp status body => if status = 200 then some body else none

/-- The dictionary built by `WeatherService.get_current_weather`. Raw
provider fields are kept as `JValue` exactly as `.get` returns them. -/
structure CurrentWeather where
  location : String
  temperature : JValue
  feels_like : JValue
  humidity : JValue
  wind_speed : JValue
  wind_direction : JValue
  condition : JValue
  pressure : JValue
  visibility : JValue
  uv_index : JValue
  last_updated : JValue
  sunrise : String
  sunset : String

/-- `WeatherService.get_current_weather`. -/
def get_current_weather (r : TransportResult) : Except PyExn (Option CurrentWeather) :=
  match make_request r with
  | none => .ok none
  | some data =>
    if jTruthy data then do
      let current ← jGet data "current" (.obj [])
      let location_data ← jGet data "location" (.obj [])
      let name ← jGet location_data "name" (.str "")
      let country ← jGet location_data "country" (.str "")
      let temp ← jGet current "temp_c" (.num 0)
      let feels ← jGet current "feelslike_c" (.num 0)
      let hum ← jGet current "humidity" (.num 0)
      let wind ← jGet current "wind_kph" (.num 0)
      let wdir ← jGet current "wind_degree" (.num 0)
      let cond ← jGet current "condition" (.obj [])
      let condText ← jGet cond "text" (.str "")
      let press ← jGet current "pressure_mb" (.num 0)
      let vis ← jGet current "vis_km" (.num 0)
      let uv ← jGet current "uv" (.num 0)
      let lastUpd ← jGet current "last_updated" (.str "")
      .ok (some
        { location := pyStrOf name ++ ", " ++ pyStrOf country
          temperature := temp
          feels_like := feels
          humidity := hum
          wind_speed := wind
          wind_direction := wdir
          condition := condText
          pressure := press
          visibility := vis
          uv_index := uv
          last_updated := lastUpd
          sunrise := "05:52 AM"
          sunset := "08:11 PM" })
    else .ok none

/-- One entry of the 12-hour forecast list. -/
structure HourEntry where
  time : String
  temperature : JValue
  condition : JValue
  precipitation : JValue
  wind_speed : JValue

/-- The loop body of `get_12hour_forecast`: index into `hours`, read the
fields and format the time. `strptime` here is NOT protected by a
`try/except`, so a missing or malformed `time` field raises. -/
def hour_entry (hours : JValue) (hour_index : Nat) : Except PyExn HourEntry := do
  let hour_data ← jIndex hours hour_index
  let tval ← jGet hour_data "time" (.str "")
  let time_obj ← strptime_ymd_hm tval
  let temp ← jGet hour_data "temp_c" (.num 0)
  let cond ← jGet hour_data "condition" (.obj [])
  let condText ← jGet cond "text" (.str "")
  let rain ← jGet hour_data "chance_of_rain" (.num 0)
  let wind ← jGet hour_data "wind_kph" (.num 0)
  .ok { time := strf_I_p time_obj
        temperature := temp
        condition := condText
        precipitation := rain
        wind_speed := wind }

/-- The `for i in range(12)` window of `get_12hour_forecast`: wrapped hour
indices `(current_hour + i) % 24`, keeping only indices below `n = len(hours)`. -/
def select12 (hours : JValue) (n : Nat) (current_hour : Nat) : Except PyExn (List HourEntry) :=
  (List.range 12).foldlM
    (fun acc i =>
      let hour_index := (current_hour + i) % 24
      if hour_index < n then do
        let e ← hour_entry hours hour_index
        .ok (acc ++ [e])
      else .ok acc)
    []

/-- `WeatherService.get_12hour_forecast`; `current_hour` stands for
`datetime.now().hour`. -/
def get_12hour_forecast (r : TransportResult) (current_hour : Nat) : Except PyExn (List HourEntry) :=
  match make_request r with
  | none => .ok []
  | some data =>
    if jTruthy data then do
      let fobj ← jGet data "forecast" (.obj [])
      let fdays ← jGet fobj "forecastday" (.arr [])
      if jTruthy fdays then do
        let today ← jIndex fdays 0
        let hours ← jGet today "hour" (.arr [])
        let n ← jLen hours
        select12 hours n current_hour
      else .ok []
    else .ok []

/-- One entry of the 7-day forecast list. The `date` field is the formatted
string when parsing succeeded and the raw provider value otherwise (the
`except` branch keeps `date_str`). -/
structure DayEntry where
  date : JValue
  temp_min : JValue
  temp_max : JValue
  condition : JValue
  precipitation_chance : JValue
  humidity : JValue

/-- The loop body of `get_7day_forecast`. -/
def day_entry (day_data : JValue) : Except PyExn DayEntry := do
  let day ← jGet day_data "day" (.obj [])
  let date_val ← jGet day_data "date" (.str "")
  let formatted : JValue :=
    match strptime_ymd date_val with
    | some d => .str (strf_a_b_d d)
    | none => date_val
  let tmin ← jGet day "mintemp_c" (.num 0)
  let tmax ← jGet day "maxtemp_c" (.num 0)
  let cond ← jGet day "condition" (.obj [])
  let condText ← jGet cond "text" (.str "")
  let rain ← jGet day "daily_chance_of_rain" (.num 0)
  let hum ← jGet day "avghumidity" (.num 0)
  .ok { date := formatted
        temp_min := tmin
        temp_max := tmax
        condition := condText
        precipitation_chance := rain
        humidity := hum }

/-- `WeatherService.get_7day_forecast`. Note: the source iterates over the
whole `forecastday` list with no truncation. -/
def get_7day_forecast (r : TransportResult) : Except PyExn (List DayEntry) :=
  match make_request r with
  | none => .ok []
  | some data =>
    if jTruthy data then do
      let fobj ← jGet data "forecast" (.obj [])
      let fdays ← jGet fobj "forecastday" (.arr [])
      let elems ← jIter fdays
      elems.mapM day_entry
    else .ok []

/-- The dictionary built by `WeatherService.get_air_quality`. -/
structure AirQualityInfo where
  aqi : Int
  status : String
  co : ℚ
  no2 : ℚ
  o3 : ℚ
  pm25 : ℚ
  pm10 : ℚ
deriving DecidableEq, Repr

/-- The composite expression `max(pm25 * 2, pm10, no2 / 2, o3 / 2, co / 10)`
of `get_air_quality`. -/
def aqiComposite (co no2 o3 pm25 pm10 : ℚ) : ℚ :=
  max (pm25 * 2) (max pm10 (max (no2 / 2) (max (o3 / 2) (co / 10))))

/-- `WeatherService.get_air_quality`. When any pollutant value is
non-numeric the source raises `TypeError` (at `no2 / 2` on a string, or at
the mixed-type `max`/`<=` comparisons); the model folds those raise sites
into one `typeError`. -/
def get_air_quality (r : TransportResult) : Except PyExn (Option AirQualityInfo) :=
  match make_request r with
  | none => .ok none
  | some data =>
    if jTruthy data then do
      let current ← jGet data "current" (.obj [])
      let air_quality ← jGet current "air_quality" (.obj [])
      let coV ← jGet air_quality "co" (.num 0)
      let no2V ← jGet air_quality "no2" (.num 0)
      let o3V ← jGet air_quality "o3" (.num 0)
      let pm25V ← jGet air_quality "pm2_5" (.num 0)
      let pm10V ← jGet air_quality "pm10" (.num 0)
      match asNum? coV, asNum? no2V, asNum? o3V, asNum? pm25V, asNum? pm10V with
      | some co, some no2, some o3, some pm25, some pm10 =>
        let aqi_value := aqiComposite co no2 o3 pm25 pm10
        let status :=
          if aqi_value ≤ 50 then "Good"
          else if aqi_value ≤ 100 then "Moderate"
          else if aqi_value ≤ 150 then "Unhealthy for Sensitive Groups"
          else "Unhealthy"
        .ok (some
          { aqi := truncRat aqi_value
            status := status
            co := round2 co
            no2 := round2 no2
            o3 := round2 o3
            pm25 := round2 pm25
            pm10 := round2 pm10 })
      | _, _, _, _, _ => .error .typeError
    else .ok none

/-- One entry of the alerts list (`end_` models the source key `'end'`). -/
structure AlertEntry where
  title : JValue
  description : JValue
  severity : JValue
  start : JValue
  end_ : JValue
  areas : JValue

/-- The loop body of `get_weather_alerts`. -/
def alert_entry (alert : JValue) : Except PyExn AlertEntry := do
  let t ← jGet alert "headline" (.str "")
  let d ← jGet alert "desc" (.str "")
  let sev ← jGet alert "severity" (.str "")
  let eff ← jGet alert "effective" (.str "")
  let exp ← jGet alert "expires" (.str "")
  let ar ← jGet alert "areas" (.str "")
  .ok { title := t, description := d, severity := sev, start := eff, end_ := exp, areas := ar }

/-- `WeatherService.get_weather_alerts`. -/
def get_weather_alerts (r : TransportResult) : Except PyExn (List AlertEntry) :=
  match make_request r with
  | none => .ok []
  | some data =>
    if jTruthy data then do
      let alertsObj ← jGet data "alerts" (.obj [])
      let alertList ← jGet alertsObj "alert" (.arr [])
      let elems ← jIter alertList
      elems.mapM alert_entry
    else .ok []

/-- One entry of the search-results list. -/
structure LocationMatch where
  name : JValue
  region : JValue
  country : JValue
  lat : JValue
  lon : JValue

/-- The loop body of `search_locations`. -/
def location_match (location : JValue) : Except PyExn LocationMatch := do
  let n ← jGet location "name" (.str "")
  let re ← jGet location "region" (.str "")
  let c ← jGet location "country" (.str "")
  let la ← jGet location "lat" (.num 0)
  let lo ← jGet location "lon" (.num 0)
  .ok { name := n, region := re, country := c, lat := la, lon := lo }

/-- `WeatherService.search_locations`. -/
def search_locations (r : TransportResult) : Except PyExn (List LocationMatch) :=
  match make_request r with
  | none => .ok []
  | some data =>
    if jTruthy data then do
      let elems ← jIter data
      elems.mapM location_match
    else .ok []

/-- The dictionary built by `WeatherService.get_historical_weather`. -/
structure HistoricalDay where
  date : String
  max_temp : JValue
  min_temp : JValue
  avg_temp : JValue
  condition : JValue
  total_precipitation : JValue
  avg_humidity : JValue
  max_wind : JValue

/-- `WeatherService.get_historical_weather`. -/
def get_historical_weather (r : TransportResult) (date : String) : Except PyExn (Option HistoricalDay) :=
  match make_request r with
  | none => .ok none
  | some data =>
    if jTruthy data then do
      let fobj ← jGet data "forecast" (.obj [])
      let fdays ← jGet fobj "forecastday" (.arr [])
      if jTruthy fdays then do
        let first ← jIndex fdays 0
        let day ← jGet first "day" (.obj [])
        let mx ← jGet day "maxtemp_c" (.num 0)
        let mn ← jGet day "mintemp_c" (.num 0)
        let av ← jGet day "avgtemp_c" (.num 0)
        let cond ← jGet day "condition" (.obj [])
        let condText ← jGet cond "text" (.str "")
        let pr ← jGet day "totalprecip_mm" (.num 0)
        let hu ← jGet day "avghumidity" (.num 0)
        let wi ← jGet day "maxwind_kph" (.num 0)
        .ok (some
          { date := date
            max_temp := mx
            min_temp := mn
            avg_temp := av
            condition := condText
            total_precipitation := pr
            avg_humidity := hu
            max_wind := wi })
      else .ok none
    else .ok none

/-! ### Persistence (`database.py`)

The relevant tables are `weather_requests` (append-only analytics log) and
`weather_cache`.  The `weather_cache` schema declares `location_key TEXT
UNIQUE` — the uniqueness constraint is on `location_key` alone, not on the
pair `(location_key, data_type)` — so SQLite `INSERT OR REPLACE` deletes any
existing row with the same `location_key` regardless of its `data_type`
before inserting.  Timestamps are integers (minutes); a storage fault
anywhere inside an operation's `try` block is modelled by the `fault` flag,
and SQLite's transactional rollback leaves the state unchanged on a fault. -/

/-- One row of the `weather_requests` table. -/
structure RequestLogRecord where
  user_id : Int
  location : String
  request_type : String
  response_time : ℚ
  success : Bool
  error_message : Option String
deriving DecidableEq, Repr

/-- One row of the `weather_cache` table (`created_at` omitted: never read). -/
structure CacheRow where
  location_key : String
  data_type : String
  weather_data : JValue
  expires_at : Int

/-- The persistent store owned by `DatabaseManager`. -/
structure DBState where
  weather_requests : List RequestLogRecord
  weather_cache : List CacheRow

/-- The `try` body of `DatabaseManager.log_weather_request`: a single
`INSERT` into `weather_requests` followed by `commit`; a storage fault makes
some SQLite call raise. -/
def log_weather_request_body (db : DBState) (user_id : Int) (location : String)
    (request_type : String) (response_time : ℚ) (success : Bool)
    (error_message : Option String) (fault : Bool) : Except String (DBState × Bool) :=
  if fault then .error "sqlite fault"
  else .ok
    ({ db with weather_requests :=
        db.weather_requests ++
          [{ user_id := user_id, location := location, request_type := request_type,
             response_time := response_time, success := success,
             error_message := error_message }] }, true)

/-- `DatabaseManager.log_weather_request`: the blanket `except` turns any
storage fault into the return value `False`. -/
def log_weather_request (db : DBState) (user_id : Int) (location : String)
    (request_type : String) (response_time : ℚ) (success : Bool)
    (error_message : Option String) (fault : Bool) : DBState × Bool :=
  match log_weather_request_body db user_id location request_type response_time
      success error_message fault with
  | .ok res => res
  | .error _ => (db, false)

/-- The `try` body of `DatabaseManager.cache_weather_data`:
`expires_at = now + ttl_minutes`, then
`INSERT OR REPLACE INTO weather_cache (location_key, data_type, weather_data, expires_at)`.
Because the table's uniqueness constraint is `location_key TEXT UNIQUE`,
the replace deletes every row with the same `location_key` (whatever its
`data_type`) and then inserts the new row. -/
def cache_weather_data_body (db : DBState) (now : Int) (location_key : String)
    (data_type : String) (weather_data : JValue) (ttl_minutes : Int)
    (fault : Bool) : Except String (DBState × Bool) :=
  if fault then .error "sqlite fault"
  else
    let expires_at := now + ttl_minutes
    .ok
      ({ db with weather_cache :=
          db.weather_cache.filter (fun row => !(row.location_key == location_key)) ++
            [{ location_key := location_key, data_type := data_type,
               weather_data := weather_data, expires_at := expires_at }] }, true)

/-- `DatabaseManager.cache_weather_data` (blanket `except` returns `False`). -/
def cache_weather_data (db : DBState) (now : Int) (location_key : String)
    (data_type : String) (weather_data : JValue) (ttl_minutes : Int)
    (fault : Bool) : DBState × Bool :=
  match cache_weather_data_body db now location_key data_type weather_data ttl_minutes fault with
  | .ok res => res
  | .error _ => (db, false)

/-- The `try` body of `DatabaseManager.get_cached_weather_data`:
`SELECT weather_data FROM weather_cache WHERE location_key = ? AND data_type = ? AND expires_at > ?`
with `?` bound to `now`, returning the decoded payload of the first matching
row, else `None`. -/
def get_cached_weather_data_body (db : DBState) (now : Int) (location_key : String)
    (data_type : String) (fault : Bool) : Except String (Option JValue) :=
  if fault then .error "sqlite fault"
  else .ok
    ((db.weather_cache.find? (fun row =>
        row.location_key == location_key && row.data_type == data_type &&
          decide (now < row.expires_at))).map (·.weather_data))

/-- `DatabaseManager.get_cached_weather_data` (blanket `except` returns `None`). -/
def get_cached_weather_data (db : DBState) (now : Int) (location_key : String)
    (data_type : String) (fault : Bool) : Option JValue :=
  match get_cached_weather_data_body db now location_key data_type fault with
  | .ok res => res
  | .error _ => none

/-! ### Helpers (`utils.py`) -/

/-- The 16-element compass table of `get_wind_direction`. -/
def wind_directions : List String :=
  ["N", "NNE", "NE", "ENE", "E", "ESE", "SE", "SSE",
   "S", "SSW", "SW", "WSW", "W", "WNW", "NW", "NNW"]

/-- `utils.get_wind_direction`: `degrees % 360` (Python `%` on a positive
modulus agrees with `Int.emod`), then `int((degrees + 11.25) / 22.5) % 16`
indexes the table.  The result is `none` exactly when the Python indexing
would raise `IndexError`. -/
def get_wind_direction (degrees : Int) : Option String :=
  let d := degrees % 360
  let index := (truncRat (((d : ℚ) + 45 / 4) / (45 / 2))) % 16
  wind_directions.get? index.toNat

/-- `utils.validate_coordinates`. -/
def validate_coordinates (lat lon : ℚ) : Bool :=
  decide (-90 ≤ lat ∧ lat ≤ 90 ∧ -180 ≤ lon ∧ lon ≤ 180)

/-- One captured group of the coordinate pattern `-?\d+\.?\d*`. -/
structure NumMatch where
  neg : Bool
  intDigits : List Char
  hasDot : Bool
  fracDigits : List Char
deriving DecidableEq, Repr

/-- Match `-?\d+\.?\d*` at the head of the input, returning the group and
the unconsumed remainder.  The pattern is deterministic: after the greedy
digit runs no later atom can consume a digit, so greedy matching equals the
regex semantics. -/
def matchSign : List Char → Bool × List Char
  | c :: t => if c = '-' then (true, t) else (false, c :: t)
  | [] => (false, [])

/-- After the optional sign: the greedy `\d+`, the optional dot, and the
greedy `\d*`. -/
def matchDigitsDot (neg : Bool) (cs1 : List Char) : Option (NumMatch × List Char) :=
  let ds := cs1.takeWhile Char.isDigit
  let r1 := cs1.dropWhile Char.isDigit
  if ds.isEmpty then none
  else
    match r1 with
    | c :: t =>
      if c = '.' then
        some (⟨neg, ds, true, t.takeWhile Char.isDigit⟩, t.dropWhile Char.isDigit)
      else some (⟨neg, ds, false, []⟩, r1)
    | [] => some (⟨neg, ds, false, []⟩, r1)

def matchNumber (cs : List Char) : Option (NumMatch × List Char) :=
  matchDigitsDot (matchSign cs).1 (matchSign cs).2

/-- `re.match(r'^(-?\d+\.?\d*),\s*(-?\d+\.?\d*)$', s)`: both captured
groups, or `none` when the pattern does not match the whole string. -/
def coordRegexMatch (cs : List Char) : Option (NumMatch × NumMatch) :=
  match matchNumber cs with
  | none => none
  | some (g1, r1) =>
    match r1 with
    | c :: r2 =>
      if c = ',' then
        match matchNumber (r2.dropWhile Char.isWhitespace) with
        | none => none
        | some (g2, r4) => if r4.isEmpty then some (g1, g2) else none
      else none
    | [] => none

/-- Python `float` of a matched group: exact decimal value.  (The source
stores a binary `float`; the claims compare parsed values, for which the
decimal reading is the reference.) -/
def pyFloatOfMatch (m : NumMatch) : ℚ :=
  let mag : ℚ := (digitsToNat m.intDigits : ℚ) +
    (digitsToNat m.fracDigits : ℚ) / ((10 : ℚ) ^ m.fracDigits.length)
  if m.neg then -mag else mag

/-- Python `s.strip()` on a character list. -/
def pyStrip (s : List Char) : List Char :=
  (((s.dropWhile Char.isWhitespace).reverse).dropWhile Char.isWhitespace).reverse

/-- Python `s.split(',')`: every comma is a cut point; always one more part
than there are commas. -/
def splitComma : List Char → List (List Char)
  | [] => [[]]
  | c :: t =>
    match splitComma t with
    | [] => [[c]]
    | h :: rest => if c = ',' then [] :: h :: rest else (c :: h) :: rest

/-- The result dictionary of `utils.parse_location_input`. -/
inductive ParsedLocation where
  | coordinates (latitude longitude : ℚ) (query : List Char) : ParsedLocation
  | place (city country region : List Char) (query : List Char) : ParsedLocation
deriving DecidableEq, Repr

/-- The place-name branches of `parse_location_input` (the code after the
coordinate pattern check): comma-separated `city, [region,] ... country`,
or a single-token city. -/
def parse_place_name (s : List Char) : ParsedLocation :=
  if s.contains ',' then
    let parts := (splitComma s).map pyStrip
    .place (parts.headD []) (if parts.length > 1 then parts.getLastD [] else [])
      (if parts.length > 2 then parts.getD 1 [] else []) s
  else
    .place s [] [] s

/-- `utils.parse_location_input`. -/
def parse_location_input (location_input : List Char) : ParsedLocation :=
  let s := pyStrip location_input
  match coordRegexMatch s with
  | some (g1, g2) =>
    let lat := pyFloatOfMatch g1
    let lon := pyFloatOfMatch g2
    if validate_coordinates lat lon then .coordinates lat lon s
    else parse_place_name s
  | none => parse_place_name s

/-- Substring test used to model Python `key in condition`. -/
def containsSeq (needle hay : List Char) : Bool :=
  hay.tails.any (fun t => needle.isPrefixOf t)

/-- The ordered substring-to-emoji table of `utils.get_weather_emoji`
(Python dict iteration preserves insertion order). -/
def emoji_map : List (String × String) :=
  [("sunny", "☀️"), ("clear", "☀️"), ("fair", "🌤️"),
   ("cloudy", "☁️"), ("overcast", "☁️"), ("partly cloudy", "⛅"), ("mostly cloudy", "🌥️"),
   ("rain", "🌧️"), ("light rain", "🌦️"), ("heavy rain", "🌧️"), ("drizzle", "🌦️"), ("shower", "🌦️"),
   ("snow", "❄️"), ("light snow", "🌨️"), ("heavy snow", "❄️"), ("blizzard", "🌨️"), ("sleet", "🌨️"),
   ("thunder", "⛈️"), ("thunderstorm", "⛈️"), ("storm", "⛈️"), ("lightning", "⛈️"),
   ("fog", "🌫️"), ("mist", "🌫️"), ("haze", "🌫️"),
   ("windy", "💨"), ("breezy", "💨"),
   ("tornado", "🌪️"), ("hurricane", "🌀"), ("typhoon", "🌀")]

/-- `utils.get_weather_emoji`: `condition.lower()` raises `AttributeError`
on a non-string; then the first table key occurring in the condition wins,
defaulting to the fair-weather emoji. -/
def get_weather_emoji (condition : JValue) : Except PyExn String :=
  match condition with
  | .str s =>
    let lowered := s.data.map Char.toLower
    .ok ((emoji_map.find? (fun p => containsSeq p.1.data lowered)).map (·.2) |>.getD "🌤️")
  | _ => .error .attributeError

/-- `utils.format_temperature` applied to a raw provider field: formatting a
non-numeric value with `:.1f` raises.  `main.py` always calls it with the
default unit, `'celsius'`. -/
def format_temperature (temp : JValue) (unit : String) : Except PyExn String :=
  match asNum? temp with
  | none => .error .valueError
  | some t =>
    if unit.data.map Char.toLower = "fahrenheit".data then
      .ok (fmt1dec (t * 9 / 5 + 32) ++ "°F")
    else .ok (fmt1dec t ++ "°C")

/-- `utils.format_wind_speed` (default unit `'kmh'`). -/
def format_wind_speed (speed : JValue) (unit : String) : Except PyExn String :=
  match asNum? speed with
  | none => .error .valueError
  | some s =>
    if unit.data.map Char.toLower = "mph".data then
      .ok (fmt1dec (s * (621371 / 1000000)) ++ " mph")
    else .ok (fmt1dec s ++ " km/h")

/-! ### The Request Orchestrator (`main.py`, `WeatherBot.send_weather_info`)

The chat transport (message objects, inline keyboards) is an excluded
collaborator: replies are modelled as the list of texts sent, and the
multi-language template store as an explicit `getText` function.  The
database is threaded through so that the orchestrator's (absent) analytics
writes are observable. -/

/-- Diagnostic rendering `str(e)` of a caught exception. -/
def pyExnMessage : PyExn → String
  | .attributeError => "AttributeError"
  | .typeError => "TypeError"
  | .valueError => "ValueError"
  | .indexError => "IndexError"

/-- `WeatherBot.format_current_weather`; `current_time` stands for
`datetime.now().strftime("%I:%M %p")`.  The template is assembled already
stripped of its surrounding blank lines. -/
def format_current_weather (getText : String → String → String)
    (weather_data : Option CurrentWeather) (user_lang : String)
    (current_time : String) : Except PyExn String :=
  match weather_data with
  | none => .ok (getText "no_data" user_lang)
  | some w => do
    let weather_emoji ← get_weather_emoji w.condition
    let temp ← format_temperature w.temperature "celsius"
    let feels ← format_temperature w.feels_like "celsius"
    let wind ← format_wind_speed w.wind_speed "kmh"
    .ok (weather_emoji ++ " <b>" ++ getText "current_weather" user_lang ++ "</b>\n" ++
      "📍 " ++ getText "location" user_lang ++ ": " ++ w.location ++ "\n" ++
      "🕐 " ++ getText "local_time" user_lang ++ ": " ++ current_time ++ "\n" ++
      "🌡️ " ++ getText "temperature" user_lang ++ ": " ++ temp ++
        " (" ++ getText "feels_like" user_lang ++ ": " ++ feels ++ ")\n" ++
      "💧 " ++ getText "humidity" user_lang ++ ": " ++ pyStrOf w.humidity ++ "%\n" ++
      "💨 " ++ getText "wind" user_lang ++ ": " ++ wind ++ " " ++
        getText "from" user_lang ++ " " ++ pyStrOf w.wind_direction ++ "°\n" ++
      "🌅 " ++ getText "sunrise" user_lang ++ ": " ++ w.sunrise ++ "\n" ++
      "🌇 " ++ getText "sunset" user_lang ++ ": " ++ w.sunset ++ "\n" ++
      "☁️ " ++ getText "weather" user_lang ++ ": " ++ pyStrOf w.condition)

/-- The remote interactions of one orchestrated request: the transport
outcome of each of the four fetches, plus the wall clock. -/
structure FetchEnv where
  current_r : TransportResult
  h12_r : TransportResult
  d7_r : TransportResult
  aq_r : TransportResult
  current_hour : Nat
  now_str : String

/-- `WeatherBot.send_weather_info`: sends the loading message, performs the
four fetches, formats and edits the message; the surrounding `try/except`
turns any raise into an error reply.  Returns the texts sent and the
database state afterwards.  The source body contains no call to
`log_weather_request` (and no timing), so the database is returned as it
came in on every path. -/
def send_weather_info (getText : String → String → String) (env : FetchEnv)
    (db : DBState) (user_lang : String) : List String × DBState :=
  let body : Except PyExn (List String) := do
    let current_weather ← get_current_weather env.current_r
    let _forecast_12h ← get_12hour_forecast env.h12_r env.current_hour
    let _forecast_7d ← get_7day_forecast env.d7_r
    let _air_quality ← get_air_quality env.aq_r
    let weather_text ← format_current_weather getText current_weather user_lang env.now_str
    .ok [getText "loading" user_lang, weather_text]
  match body with
  | .ok msgs => (msgs, db)
  | .error e =>
    ([getText "loading" user_lang,
      getText "error_occurred" user_lang ++ ": " ++ pyExnMessage e], db)

/-! ### Shared infrastructure lemmas -/

/-- Inversion for a successful `Except` bind. -/
lemma except_bind_ok {ε α β : Type} {x : Except ε α} {f : α → Except ε β} {b : β}
    (h : x >>= f = .ok b) : ∃ a, x = .ok a ∧ f a = .ok b := by
  cases x with
  | error e => simp [Bind.bind, Except.bind] at h
  | ok a => exact ⟨a, rfl, by simpa [Bind.bind, Except.bind] using h⟩

/-- A successful `mapM` over `Except` relates input and output pointwise. -/
lemma mapM_ok {ε α β : Type} (f : α → Except ε β) :
    ∀ (es : List α) (l : List β), es.mapM f = .ok l →
      List.Forall₂ (fun e b => f e = .ok b) es l := by
  intro es
  induction es with
  | nil =>
    intro l h
    simp only [List.mapM_nil, pure, Except.pure] at h
    cases h
    exact List.Forall₂.nil
  | cons a t ih =>
    intro l h
    simp only [List.mapM_cons] at h
    obtain ⟨b, hb, h2⟩ := except_bind_ok h
    obtain ⟨bs, hbs, h3⟩ := except_bind_ok h2
    simp only [pure, Except.pure, Except.ok.injEq] at h3
    subst h3
    exact List.Forall₂.cons hb (ih bs hbs)

/-- `Rat.floor` agrees with the floor of the ordered field structure. -/
lemma rat_floor_eq_int_floor (q : ℚ) : Rat.floor q = ⌊q⌋ := by
  apply le_antisymm
  · exact Int.le_floor.mpr (Rat.le_floor.mp le_rfl)
  · exact Rat.le_floor.mpr (Int.floor_le q)

/-- A provider `current.json` body carrying the five pollutant readings. -/
def mkAqResponse (co no2 o3 pm25 pm10 : ℚ) : JValue :=
  .obj [("current", .obj [("air_quality", .obj
    [("co", .num co), ("no2", .num no2), ("o3", .num o3),
     ("pm2_5", .num pm25), ("pm10", .num pm10)])])]

/-- Symbolic evaluation of `get_air_quality` on a well-formed pollutant
response: the returned integer is the truncation of the composite, and the
status is the band of the untruncated composite. -/
lemma get_air_quality_eval (co no2 o3 pm25 pm10 : ℚ) :
    get_air_quality (.resp 200 (mkAqResponse co no2 o3 pm25 pm10)) =
      .ok (some
        { aqi := truncRat (aqiComposite co no2 o3 pm25 pm10)
          status :=
            if aqiComposite co no2 o3 pm25 pm10 ≤ 50 then "Good"
            else if aqiComposite co no2 o3 pm25 pm10 ≤ 100 then "Moderate"
            else if aqiComposite co no2 o3 pm25 pm10 ≤ 150 then "Unhealthy for Sensitive Groups"
            else "Unhealthy"
          co := round2 co
          no2 := round2 no2
          o3 := round2 o3
          pm25 := round2 pm25
          pm10 := round2 pm10 }) := rfl

/-- The empty store. -/
def emptyDB : DBState := ⟨[], []⟩

/-! ## Claim C10 -/

/-- Claim C10: for every integer degrees value, including negative values and
values of 360 or more, the table index computed by `get_wind_direction` lies
within the bounds of the 16-element compass table, so the function is total
and always returns one of the 16 compass labels. -/
theorem claim_C10_wind_direction_total (degrees : Int) :
    ∃ s, get_wind_direction degrees = some s ∧ s ∈ wind_directions := by
  show ∃ s,
    wind_directions.get?
        ((truncRat ((((degrees % 360 : Int) : ℚ) + 45 / 4) / (45 / 2))) % 16).toNat = some s ∧
      s ∈ wind_directions
  have h0 : 0 ≤ (truncRat ((((degrees % 360 : Int) : ℚ) + 45 / 4) / (45 / 2))) % 16 :=
    Int.emod_nonneg _ (by norm_num)
  have h16 : (truncRat ((((degrees % 360 : Int) : ℚ) + 45 / 4) / (45 / 2))) % 16 < 16 :=
    Int.emod_lt_of_pos _ (by norm_num)
  have hlen : wind_directions.length = 16 := rfl
  have hn : ((truncRat ((((degrees % 360 : Int) : ℚ) + 45 / 4) / (45 / 2))) % 16).toNat <
      wind_directions.length := by
    rw [hlen]
    exact (Int.toNat_lt h0).mpr (by exact_mod_cast h16)
  exact ⟨_, List.get?_eq_get hn, List.get_mem _ _ _⟩

/-! ## Claim C2 -/

/-- The store after caching the current-conditions payload for `paris`. -/
def dbAfterCurrentWrite : DBState :=
  (cache_weather_data emptyDB 0 "paris" "current" (.str "payloadA") 10 false).1

/-- The store after additionally caching the forecast payload for `paris`
under the distinct data type `forecast`. -/
def dbAfterForecastWrite : DBState :=
  (cache_weather_data dbAfterCurrentWrite 0 "paris" "forecast" (.str "payloadB") 10 false).1

/-- Claim C2 (code bug): the `weather_cache` schema declares `UNIQUE` on
`location_key` alone, so `INSERT OR REPLACE` of the `("paris", "forecast")`
entry silently deletes the live `("paris", "current")` entry even though the
data types differ: the current-conditions payload was retrievable before the
forecast write and is gone afterwards, while the read path filters by the
pair `(location_key, data_type)` exactly as the spec describes. -/
theorem claim_C2_cross_type_eviction :
    get_cached_weather_data dbAfterCurrentWrite 0 "paris" "current" false =
      some (.str "payloadA") ∧
    get_cached_weather_data dbAfterForecastWrite 0 "paris" "current" false = none ∧
    get_cached_weather_data dbAfterForecastWrite 0 "paris" "forecast" false =
      some (.str "payloadB") :=
  ⟨rfl, rfl, rfl⟩

/-! ## Claim C9 -/

/-- Claim C9: each persistence operation of the cache/analytics store wraps
its whole body in a blanket exception handler: when the storage layer faults
the body raises, the operation still returns its default value (`false` for
the writes, `none` for the read) with the store unchanged, and a read that
faults is indistinguishable from an ordinary miss (which also returns
`none`). -/
theorem claim_C9_persistence_never_raises (db : DBState) (now ttl : Int)
    (k dt : String) (wd : JValue) (u : Int) (loc rt : String) (t : ℚ)
    (s : Bool) (em : Option String) :
    (cache_weather_data_body db now k dt wd ttl true = .error "sqlite fault" ∧
      cache_weather_data db now k dt wd ttl true = (db, false)) ∧
    (get_cached_weather_data_body db now k dt true = .error "sqlite fault" ∧
      get_cached_weather_data db now k dt true = none) ∧
    (log_weather_request_body db u loc rt t s em true = .error "sqlite fault" ∧
      log_weather_request db u loc rt t s em true = (db, false)) ∧
    get_cached_weather_data ⟨db.weather_requests, []⟩ now k dt false = none :=
  ⟨⟨rfl, rfl⟩, ⟨rfl, rfl⟩, ⟨rfl, rfl⟩, rfl⟩

/-! ## Claim C1 -/

/-- Stand-in for the multi-language template store (an excluded
collaborator): every template key renders as itself. -/
def getTextStub : String → String → String := fun key _ => key

/-- One orchestrated request whose four fetches all fail with a
transport-level fault (e.g. a timeout raised by the HTTP session). -/
def timeoutEnv : FetchEnv := ⟨.exn, .exn, .exn, .exn, 0, "12:00 PM"⟩

/-- Claim C1 is false on the code: an orchestrated request whose fetches all
time out produces the failure rendering (the `no_data` template) and writes
zero `RequestLogRecord`s — not the one record with `success=false` the claim
requires — because `send_weather_info` never invokes the request log. -/
theorem claim_C1_counterexample :
    (send_weather_info getTextStub timeoutEnv emptyDB "en").2.weather_requests.length = 0 ∧
    (send_weather_info getTextStub timeoutEnv emptyDB "en").1 = ["loading", "no_data"] ∧
    (0 : Nat) ≠ 1 :=
  ⟨rfl, rfl, by decide⟩

/-- Claim C1 (amended): an orchestrated weather request writes no
`RequestLogRecord` at all — `send_weather_info` returns the store unchanged
on every path (success, failure value, or caught exception) — while the
unused helper `log_weather_request`, when called directly without a storage
fault, appends exactly one record and reports success. -/
theorem claim_C1_no_request_logging :
    (∀ (getText : String → String → String) (env : FetchEnv) (db : DBState)
        (user_lang : String), (send_weather_info getText env db user_lang).2 = db) ∧
    (∀ (db : DBState) (u : Int) (loc rt : String) (t : ℚ) (s : Bool)
        (em : Option String),
      (log_weather_request db u loc rt t s em false).1.weather_requests =
        db.weather_requests ++
          [{ user_id := u, location := loc, request_type := rt,
             response_time := t, success := s, error_message := em }] ∧
      (log_weather_request db u loc rt t s em false).2 = true) := by
  constructor
  · intro getText env db user_lang
    simp only [send_weather_info]
    split <;> rfl
  · intro db u loc rt t s em
    exact ⟨rfl, rfl⟩

/-! ## Claim C8 -/

/-- Claim C8: whenever `get_current_weather` succeeds, the returned record
carries the constant strings `05:52 AM` and `08:11 PM` as sunrise and
sunset, independent of the location queried and of everything in the
provider response. -/
theorem claim_C8_constant_sun_times (r : TransportResult) (w : CurrentWeather)
    (h : get_current_weather r = .ok (some w)) :
    w.sunrise = "05:52 AM" ∧ w.sunset = "08:11 PM" := by
  simp only [get_current_weather] at h
  cases hm : make_request r with
  | none => simp only [hm] at h; simp at h
  | some data =>
    simp only [hm] at h
    by_cases ht : jTruthy data
    · rw [if_pos ht] at h
      obtain ⟨current, h1, h⟩ := except_bind_ok h
      obtain ⟨location_data, h2, h⟩ := except_bind_ok h
      obtain ⟨name, h3, h⟩ := except_bind_ok h
      obtain ⟨country, h4, h⟩ := except_bind_ok h
      obtain ⟨temp, h5, h⟩ := except_bind_ok h
      obtain ⟨feels, h6, h⟩ := except_bind_ok h
      obtain ⟨hum, h7, h⟩ := except_bind_ok h
      obtain ⟨wind, h8, h⟩ := except_bind_ok h
      obtain ⟨wdir, h9, h⟩ := except_bind_ok h
      obtain ⟨cond, h10, h⟩ := except_bind_ok h
      obtain ⟨condText, h11, h⟩ := except_bind_ok h
      obtain ⟨press, h12, h⟩ := except_bind_ok h
      obtain ⟨vis, h13, h⟩ := except_bind_ok h
      obtain ⟨uv, h14, h⟩ := except_bind_ok h
      obtain ⟨lastUpd, h15, h⟩ := except_bind_ok h
      simp only [Except.ok.injEq, Option.some.injEq] at h
      subst h
      exact ⟨rfl, rfl⟩
    · rw [if_neg ht] at h
      simp at h

/-- A well-formed provider response for the sunrise/sunset witness. -/
def okCurrentJson : JValue :=
  .obj [("location", .obj [("name", .str "Paris"), ("country", .str "France")]),
        ("current", .obj [("temp_c", .num 21)])]

/-- The record `get_current_weather` builds from `okCurrentJson`. -/
def parisCurrentRecord : CurrentWeather :=
  { location := "Paris, France"
    temperature := .num 21
    feels_like := .num 0
    humidity := .num 0
    wind_speed := .num 0
    wind_direction := .num 0
    condition := .str ""
    pressure := .num 0
    visibility := .num 0
    uv_index := .num 0
    last_updated := .str ""
    sunrise := "05:52 AM"
    sunset := "08:11 PM" }

/-- Witness for C8: a concrete successful fetch. -/
theorem claim_C8_constant_sun_times_witness :
    parisCurrentRecord.sunrise = "05:52 AM" ∧ parisCurrentRecord.sunset = "08:11 PM" :=
  claim_C8_constant_sun_times (.resp 200 okCurrentJson) parisCurrentRecord rfl

/-! ## Claim C3 -/

/-- A 200 response whose first forecast hour lacks the `time` field. -/
def badHourlyJson : JValue :=
  .obj [("forecast", .obj [("forecastday", .arr [.obj [("hour", .arr [.obj []])]])])]

/-- Claim C3 is false on the code: `get_12hour_forecast` applies
`datetime.strptime` to the hour's `time` field with no exception handler, so
a 200 response whose hour entry lacks `time` makes the fetch raise
`ValueError` past the client boundary instead of returning a tagged value. -/
theorem claim_C3_counterexample :
    get_12hour_forecast (.resp 200 badHourlyJson) 0 = .error .valueError := rfl

/-- Claim C3 (amended): transport-level faults and non-2xx responses are
always converted into the tagged failure value of each fetch operation —
`_make_request` yields `None` for both, and every fetch operation maps that
`None` to its failure result without raising.  (A 2xx response with
malformed fields can still raise, per the counterexample.) -/
theorem claim_C3_transport_faults_tagged :
    (∀ (body : JValue), make_request .exn = none ∧
      ∀ (status : Nat), status ≠ 200 → make_request (.resp status body) = none) ∧
    (∀ (r : TransportResult), make_request r = none →
      get_current_weather r = .ok none ∧
      (∀ current_hour, get_12hour_forecast r current_hour = .ok []) ∧
      get_7day_forecast r = .ok [] ∧
      get_air_quality r = .ok none ∧
      get_weather_alerts r = .ok [] ∧
      search_locations r = .ok [] ∧
      (∀ date, get_historical_weather r date = .ok none)) := by
  constructor
  · intro body
    exact ⟨rfl, fun status hs => by simp [make_request, hs]⟩
  · intro r h
    refine ⟨?_, fun ch => ?_, ?_, ?_, ?_, ?_, fun d => ?_⟩ <;>
      simp [get_current_weather, get_12hour_forecast, get_7day_forecast,
        get_air_quality, get_weather_alerts, search_locations,
        get_historical_weather, h]

/-- Witness for C3 (amended): a concrete timeout and a concrete 404. -/
theorem claim_C3_transport_faults_tagged_witness :
    get_current_weather .exn = .ok none ∧
    get_12hour_forecast .exn 7 = .ok [] ∧
    make_request (.resp 404 (.obj [])) = none :=
  ⟨(claim_C3_transport_faults_tagged.2 .exn rfl).1,
   (claim_C3_transport_faults_tagged.2 .exn rfl).2.1 7,
   (claim_C3_transport_faults_tagged.1 (.obj [])).2 404 (by decide)⟩

/-! ## Claim C4 -/

/-- The banding the claim asserts is applied to the returned integer `aqi`
value (the claim-side reading, for comparison with the code). -/
def claimIntBand (n : Int) : String :=
  if n ≤ 50 then "Good"
  else if n ≤ 100 then "Moderate"
  else if n ≤ 150 then "Unhealthy for Sensitive Groups"
  else "Unhealthy"

/-- Claim C4 is false on the code: with `co = 1005` (others 0) the composite
is `100.5`; the source bands the untruncated composite (yielding
`Unhealthy for Sensitive Groups`) but returns `int(100.5) = 100`, whose band
per the claim is `Moderate` — the returned status disagrees with the band of
the returned integer. -/
theorem claim_C4_counterexample :
    Except.map (Option.map (fun r => (r.aqi, r.status)))
        (get_air_quality (.resp 200 (mkAqResponse 1005 0 0 0 0))) =
      .ok (some (100, "Unhealthy for Sensitive Groups")) ∧
    claimIntBand 100 = "Moderate" ∧
    "Unhealthy for Sensitive Groups" ≠ "Moderate" := by
  have hmax : aqiComposite 1005 0 0 0 0 = 201 / 2 := by
    simp [aqiComposite, max_def]
    norm_num
  have htr : truncRat ((201 : ℚ) / 2) = 100 := by
    rw [truncRat, if_pos (by norm_num : (0 : ℚ) ≤ 201 / 2), rat_floor_eq_int_floor,
      Int.floor_eq_iff]
    constructor <;> norm_num
  refine ⟨?_, rfl, by decide⟩
  rw [get_air_quality_eval, hmax]
  rw [if_neg (by norm_num), if_neg (by norm_num), if_pos (by norm_num)]
  simp only [Except.map, Option.map, htr]

/-- `truncRat` of an integer is that integer. -/
lemma truncRat_intCast (m : Int) : truncRat ((m : Int) : ℚ) = m := by
  unfold truncRat
  split
  · rw [rat_floor_eq_int_floor, Int.floor_intCast]
  · rw [← Int.cast_neg, rat_floor_eq_int_floor, Int.floor_intCast, neg_neg]

/-- Claim C4 (amended): `get_air_quality` computes the composite
`max(pm25*2, pm10, no2/2, o3/2, co/10)`, returns its truncation as the
integer `aqi`, and bands the *untruncated* composite for the status; when
the composite is itself an integer, the status does agree with the band of
the returned integer value. -/
theorem claim_C4_aqi_banding (co no2 o3 pm25 pm10 : ℚ) :
    get_air_quality (.resp 200 (mkAqResponse co no2 o3 pm25 pm10)) =
      .ok (some
        { aqi := truncRat (aqiComposite co no2 o3 pm25 pm10)
          status :=
            if aqiComposite co no2 o3 pm25 pm10 ≤ 50 then "Good"
            else if aqiComposite co no2 o3 pm25 pm10 ≤ 100 then "Moderate"
            else if aqiComposite co no2 o3 pm25 pm10 ≤ 150 then "Unhealthy for Sensitive Groups"
            else "Unhealthy"
          co := round2 co
          no2 := round2 no2
          o3 := round2 o3
          pm25 := round2 pm25
          pm10 := round2 pm10 }) ∧
    (∀ m : Int, aqiComposite co no2 o3 pm25 pm10 = (m : ℚ) →
      claimIntBand (truncRat (aqiComposite co no2 o3 pm25 pm10)) =
        (if aqiComposite co no2 o3 pm25 pm10 ≤ 50 then "Good"
         else if aqiComposite co no2 o3 pm25 pm10 ≤ 100 then "Moderate"
         else if aqiComposite co no2 o3 pm25 pm10 ≤ 150 then "Unhealthy for Sensitive Groups"
         else "Unhealthy")) := by
  refine ⟨get_air_quality_eval co no2 o3 pm25 pm10, ?_⟩
  intro m hm
  rw [hm, truncRat_intCast]
  unfold claimIntBand
  by_cases h1 : m ≤ 50
  · rw [if_pos h1, if_pos (by exact_mod_cast h1)]
  · rw [if_neg h1, if_neg (show ¬((m : ℚ) ≤ 50) by exact_mod_cast h1)]
    by_cases h2 : m ≤ 100
    · rw [if_pos h2, if_pos (by exact_mod_cast h2)]
    · rw [if_neg h2, if_neg (show ¬((m : ℚ) ≤ 100) by exact_mod_cast h2)]
      by_cases h3 : m ≤ 150
      · rw [if_pos h3, if_pos (by exact_mod_cast h3)]
      · rw [if_neg h3, if_neg (show ¬((m : ℚ) ≤ 150) by exact_mod_cast h3)]

/-- Witness for C4 (amended): the all-zero pollutant reading. -/
theorem claim_C4_aqi_banding_witness :
    claimIntBand (truncRat (aqiComposite 0 0 0 0 0)) =
      (if aqiComposite 0 0 0 0 0 ≤ 50 then "Good"
       else if aqiComposite 0 0 0 0 0 ≤ 100 then "Moderate"
       else if aqiComposite 0 0 0 0 0 ≤ 150 then "Unhealthy for Sensitive Groups"
       else "Unhealthy") :=
  (claim_C4_aqi_banding 0 0 0 0 0).2 0 (by simp [aqiComposite])

/-! ## Claim C5 -/

/-- A 200 forecast response with eight well-formed forecast days. -/
def eightDayJson : JValue :=
  .obj [("forecast", .obj [("forecastday", .arr (List.replicate 8 (.obj [])))])]

/-- Claim C5 is false on the code: `get_7day_forecast` iterates the whole
`forecastday` list with no truncation, so a provider response with eight
entries yields eight returned entries, not at most seven. -/
theorem claim_C5_counterexample :
    Except.map List.length (get_7day_forecast (.resp 200 eightDayJson)) = .ok 8 ∧
    ¬(8 ≤ 7) :=
  ⟨rfl, by decide⟩

/-- Claim C5 (amended): `get_7day_forecast` returns exactly one entry per
element of the provider's `forecastday` list, in provider order, with no
client-side truncation (the 7-entry bound holds only because the request
asks the provider for 7 days). -/
theorem claim_C5_one_entry_per_day :
    (∀ (es : List JValue) (l : List DayEntry),
        es.mapM day_entry = .ok l →
          List.Forall₂ (fun e b => day_entry e = .ok b) es l) ∧
    (∀ (r : TransportResult) (l : List DayEntry), get_7day_forecast r = .ok l →
        ∃ es : List JValue, List.Forall₂ (fun e b => day_entry e = .ok b) es l) := by
  constructor
  · exact mapM_ok day_entry
  · intro r l h
    simp only [get_7day_forecast] at h
    cases hm : make_request r with
    | none =>
      simp only [hm, Except.ok.injEq] at h
      exact ⟨[], h ▸ List.Forall₂.nil⟩
    | some data =>
      simp only [hm] at h
      by_cases ht : jTruthy data
      · rw [if_pos ht] at h
        obtain ⟨fobj, h1, h⟩ := except_bind_ok h
        obtain ⟨fdays, h2, h⟩ := except_bind_ok h
        obtain ⟨elems, h3, h⟩ := except_bind_ok h
        exact ⟨elems, mapM_ok day_entry elems l h⟩
      · rw [if_neg ht] at h
        simp only [Except.ok.injEq] at h
        exact ⟨[], h ▸ List.Forall₂.nil⟩

/-- The entry built from an empty forecast-day object. -/
def emptyDayEntry : DayEntry :=
  { date := .str "", temp_min := .num 0, temp_max := .num 0,
    condition := .str "", precipitation_chance := .num 0, humidity := .num 0 }

/-- Witness for C5 (amended): one concrete forecast day. -/
theorem claim_C5_one_entry_per_day_witness :
    List.Forall₂ (fun e b => day_entry e = .ok b) [JValue.obj []] [emptyDayEntry] :=
  claim_C5_one_entry_per_day.1 [.obj []] [emptyDayEntry] rfl

/-! ## Claim C6 -/

/-- The selection function realised by the `range(12)` loop: offset `i`
contributes the entry at wrapped index `(current_hour + i) % 24` when that
index is within the provider's hour list. -/
def hourSelect (hours : JValue) (n current_hour : Nat) (i : Nat) : Option HourEntry :=
  if (current_hour + i) % 24 < n then (hour_entry hours ((current_hour + i) % 24)).toOption
  else none

/-- Unrolling the `select12` fold: a successful run appends exactly the
entries selected by `hourSelect`, in offset order. -/
lemma select12_fold (hours : JValue) (n current_hour : Nat) :
    ∀ (offsets : List Nat) (acc l : List HourEntry),
      (offsets.foldlM
        (fun acc i =>
          let hour_index := (current_hour + i) % 24
          if hour_index < n then do
            let e ← hour_entry hours hour_index
            Except.ok (acc ++ [e])
          else .ok acc) acc) = .ok l →
      l = acc ++ offsets.filterMap (hourSelect hours n current_hour) := by
  intro offsets
  induction offsets with
  | nil =>
    intro acc l h
    simp only [List.foldlM_nil, pure, Except.pure, Except.ok.injEq] at h
    simp [h.symm]
  | cons i t ih =>
    intro acc l h
    rw [List.foldlM_cons] at h
    obtain ⟨acc', h1, h2⟩ := except_bind_ok h
    by_cases hlt : (current_hour + i) % 24 < n
    · simp only [if_pos hlt] at h1
      obtain ⟨e, he, hok⟩ := except_bind_ok h1
      simp only [Except.ok.injEq] at hok
      subst hok
      have hrec := ih (acc ++ [e]) l h2
      simp [hrec, List.filterMap_cons, hourSelect, hlt, he, Except.toOption]
    · simp only [if_neg hlt, Except.ok.injEq] at h1
      subst h1
      have hrec := ih acc l h2
      simp [hrec, List.filterMap_cons, hourSelect, hlt]

/-- Claim C6: whenever `get_12hour_forecast` returns a list, that list has
at most 12 entries; and a successful `select12` run returns exactly the
entries picked by the wrapped hour index `(current_hour + i) % 24` for `i`
ranging over `0..11` in increasing order (entries whose wrapped index falls
outside the provider's hour list are skipped, preserving order). -/
theorem claim_C6_hourly_window :
    (∀ (r : TransportResult) (current_hour : Nat) (l : List HourEntry),
        get_12hour_forecast r current_hour = .ok l → l.length ≤ 12) ∧
    (∀ (hours : JValue) (n current_hour : Nat) (l : List HourEntry),
        select12 hours n current_hour = .ok l →
          l = (List.range 12).filterMap (hourSelect hours n current_hour)) := by
  have hsel : ∀ (hours : JValue) (n current_hour : Nat) (l : List HourEntry),
      select12 hours n current_hour = .ok l →
        l = (List.range 12).filterMap (hourSelect hours n current_hour) := by
    intro hours n current_hour l h
    have := select12_fold hours n current_hour (List.range 12) [] l h
    simpa using this
  refine ⟨?_, hsel⟩
  intro r current_hour l h
  simp only [get_12hour_forecast] at h
  cases hm : make_request r with
  | none =>
    simp only [hm, Except.ok.injEq] at h
    simp [← h]
  | some data =>
    simp only [hm] at h
    by_cases ht : jTruthy data
    · rw [if_pos ht] at h
      obtain ⟨fobj, h1, h⟩ := except_bind_ok h
      obtain ⟨fdays, h2, h⟩ := except_bind_ok h
      by_cases ht2 : jTruthy fdays
      · rw [if_pos ht2] at h
        obtain ⟨today, h3, h⟩ := except_bind_ok h
        obtain ⟨hours, h4, h⟩ := except_bind_ok h
        obtain ⟨n, h5, h⟩ := except_bind_ok h
        have hl := hsel hours n current_hour l h
        calc l.length = ((List.range 12).filterMap (hourSelect hours n current_hour)).length := by
              rw [hl]
          _ ≤ (List.range 12).length := List.length_filterMap_le _ _
          _ = 12 := List.length_range 12
      · rw [if_neg ht2] at h
        simp only [Except.ok.injEq] at h
        simp [← h]
    · rw [if_neg ht] at h
      simp only [Except.ok.injEq] at h
      simp [← h]

/-- A 200 forecast response with a single well-formed hour entry. -/
def oneHourJson : JValue :=
  .obj [("forecast", .obj [("forecastday",
    .arr [.obj [("hour", .arr [.obj [("time", .str "2024-06-01 00:00")]])]])])]

/-- The entry `get_12hour_forecast` builds from `oneHourJson` at hour 0. -/
def midnightEntry : HourEntry :=
  { time := "12 AM", temperature := .num 0, condition := .str "",
    precipitation := .num 0, wind_speed := .num 0 }

/-- Witness for C6: a concrete successful fetch with one selected hour. -/
theorem claim_C6_hourly_window_witness : ([midnightEntry] : List HourEntry).length ≤ 12 :=
  claim_C6_hourly_window.1 (.resp 200 oneHourJson) 0 [midnightEntry] rfl

/-! ## Claim C7 -/

/-- The textual form of a captured coordinate group. -/
def numStr (m : NumMatch) : List Char :=
  (if m.neg then ['-'] else []) ++ m.intDigits ++
    (if m.hasDot then ['.'] else []) ++ m.fracDigits

lemma digit_not_whitespace {c : Char} (h : c.isDigit = true) : c.isWhitespace = false := by
  cases hw : c.isWhitespace
  · rfl
  · exfalso
    simp only [Char.isWhitespace, Bool.or_eq_true, decide_eq_true_eq] at hw
    rcases hw with ((hc | hc) | hc) | hc <;> subst hc <;> exact absurd h (by decide)

lemma digit_ne_minus {c : Char} (h : c.isDigit = true) : c ≠ '-' := by
  rintro rfl; exact absurd h (by decide)

lemma dropWhile_head_not {p : Char → Bool} (l : List Char)
    (h : ∀ c, l.head? = some c → p c = false) : l.dropWhile p = l := by
  cases l with
  | nil => rfl
  | cons c t => simp [List.dropWhile_cons, h c rfl]

lemma takeWhile_all_append {p : Char → Bool} (ds r : List Char) :
    (∀ c ∈ ds, p c = true) → (∀ c, r.head? = some c → p c = false) →
      (ds ++ r).takeWhile p = ds ∧ (ds ++ r).dropWhile p = r := by
  induction ds with
  | nil =>
    intro _ h2
    refine ⟨?_, dropWhile_head_not r h2⟩
    cases r with
    | nil => rfl
    | cons c t => simp [List.takeWhile_cons, h2 c rfl]
  | cons c t ih =>
    intro h1 h2
    have hc : p c = true := h1 c (List.mem_cons_self c t)
    obtain ⟨hT, hD⟩ := ih (fun x hx => h1 x (List.mem_cons_of_mem c hx)) h2
    constructor
    · simp [List.cons_append, List.takeWhile_cons, hc, hT]
    · simp [List.cons_append, List.dropWhile_cons, hc, hD]

lemma pyStrip_eq_self (s : List Char)
    (h1 : ∀ c, s.head? = some c → c.isWhitespace = false)
    (h2 : ∀ c, s.getLast? = some c → c.isWhitespace = false) : pyStrip s = s := by
  unfold pyStrip
  rw [dropWhile_head_not s h1]
  rw [dropWhile_head_not s.reverse
    (by intro c hc; exact h2 c (by rwa [List.head?_reverse] at hc))]
  exact List.reverse_reverse s

lemma matchDigitsDot_exact (neg : Bool) (d f rest : List Char) (dot : Bool)
    (hd : d ≠ []) (hdig : ∀ c ∈ d, c.isDigit = true)
    (hfrac : ∀ c ∈ f, c.isDigit = true)
    (hdot : dot = false → f = [])
    (hrest : ∀ c, rest.head? = some c → (c.isDigit = false ∧ c ≠ '.')) :
    matchDigitsDot neg (d ++ ((if dot then ['.'] else []) ++ f ++ rest)) =
      some (⟨neg, d, dot, f⟩, rest) := by
  have hhead : ∀ c, (((if dot then ['.'] else []) ++ f ++ rest).head? = some c) →
      Char.isDigit c = false := by
    intro c hc
    cases dot with
    | false =>
      rw [hdot rfl] at hc
      simp only [Bool.false_eq_true, if_false, List.nil_append] at hc
      exact (hrest c hc).1
    | true =>
      simp only [if_pos trivial, List.cons_append, List.head?_cons, Option.some.injEq] at hc
      subst hc; decide
  have hsplit := takeWhile_all_append (p := Char.isDigit) d
    ((if dot then ['.'] else []) ++ f ++ rest) hdig hhead
  obtain ⟨c0, d', hd0⟩ := List.exists_cons_of_ne_nil hd
  unfold matchDigitsDot
  simp only [hsplit.1, hsplit.2]
  rw [hd0]
  simp only [List.isEmpty_cons, Bool.false_eq_true, if_false]
  rw [← hd0]
  cases dot with
  | true =>
    simp only [if_pos trivial, List.cons_append]
    have hsplit2 := takeWhile_all_append (p := Char.isDigit) f rest hfrac
      (fun c hc => (hrest c hc).1)
    simp [hsplit2.1, hsplit2.2]
  | false =>
    have hf : f = [] := hdot rfl
    subst hf
    simp only [Bool.false_eq_true, if_false, List.nil_append]
    cases rest with
    | nil => simp
    | cons c t =>
      simp [if_neg ((hrest c (by simp)).2)]

lemma numStr_chars (m : NumMatch) (hdig : ∀ c ∈ m.intDigits, c.isDigit = true)
    (hfrac : ∀ c ∈ m.fracDigits, c.isDigit = true) :
    ∀ c ∈ numStr m, c.isWhitespace = false := by
  intro c hc
  unfold numStr at hc
  simp only [List.mem_append] at hc
  rcases hc with ((hA | hB) | hC) | hD
  · by_cases hn : m.neg = true
    · rw [if_pos hn] at hA; simp at hA; subst hA; decide
    · rw [if_neg hn] at hA; simp at hA
  · exact digit_not_whitespace (hdig c hB)
  · by_cases hn : m.hasDot = true
    · rw [if_pos hn] at hC; simp at hC; subst hC; decide
    · rw [if_neg hn] at hC; simp at hC
  · exact digit_not_whitespace (hfrac c hD)

lemma numStr_ne_nil (m : NumMatch) (hd : m.intDigits ≠ []) : numStr m ≠ [] := by
  unfold numStr
  cases hn : m.neg <;> simp [List.append_eq_nil, hd]

lemma matchSign_numStr (m : NumMatch) (rest : List Char) (hd : m.intDigits ≠ [])
    (hdig : ∀ c ∈ m.intDigits, c.isDigit = true) :
    matchSign (numStr m ++ rest) =
      (m.neg, m.intDigits ++ ((if m.hasDot then ['.'] else []) ++ m.fracDigits ++ rest)) := by
  obtain ⟨c0, d', hd0⟩ := List.exists_cons_of_ne_nil hd
  cases hn : m.neg
  · have hshape : numStr m ++ rest =
        m.intDigits ++ ((if m.hasDot then ['.'] else []) ++ m.fracDigits ++ rest) := by
      unfold numStr; rw [hn]; simp [List.append_assoc]
    have hc0 : c0.isDigit = true := hdig c0 (by rw [hd0]; exact List.mem_cons_self _ _)
    rw [hshape, hd0]
    simp only [List.cons_append, matchSign, if_neg (digit_ne_minus hc0)]
  · have hshape : numStr m ++ rest =
        '-' :: (m.intDigits ++ ((if m.hasDot then ['.'] else []) ++ m.fracDigits ++ rest)) := by
      unfold numStr; rw [hn]; simp [List.append_assoc]
    rw [hshape]
    simp [matchSign]

lemma matchNumber_exact (m : NumMatch) (rest : List Char)
    (hd : m.intDigits ≠ []) (hdig : ∀ c ∈ m.intDigits, c.isDigit = true)
    (hfrac : ∀ c ∈ m.fracDigits, c.isDigit = true)
    (hdot : m.hasDot = false → m.fracDigits = [])
    (hrest : ∀ c, rest.head? = some c → (c.isDigit = false ∧ c ≠ '.')) :
    matchNumber (numStr m ++ rest) = some (m, rest) := by
  unfold matchNumber
  rw [matchSign_numStr m rest hd hdig]
  exact matchDigitsDot_exact m.neg m.intDigits m.fracDigits rest m.hasDot hd hdig hfrac hdot hrest

lemma coordRegexMatch_exact (g1 g2 : NumMatch) (ws : List Char)
    (h1d : g1.intDigits ≠ []) (h1dig : ∀ c ∈ g1.intDigits, c.isDigit = true)
    (h1frac : ∀ c ∈ g1.fracDigits, c.isDigit = true)
    (h1dot : g1.hasDot = false → g1.fracDigits = [])
    (h2d : g2.intDigits ≠ []) (h2dig : ∀ c ∈ g2.intDigits, c.isDigit = true)
    (h2frac : ∀ c ∈ g2.fracDigits, c.isDigit = true)
    (h2dot : g2.hasDot = false → g2.fracDigits = [])
    (hws : ∀ c ∈ ws, c.isWhitespace = true) :
    coordRegexMatch (numStr g1 ++ [','] ++ ws ++ numStr g2) = some (g1, g2) := by
  have hshape : numStr g1 ++ [','] ++ ws ++ numStr g2 =
      numStr g1 ++ (',' :: (ws ++ numStr g2)) := by simp
  rw [hshape]
  unfold coordRegexMatch
  rw [matchNumber_exact g1 (',' :: (ws ++ numStr g2)) h1d h1dig h1frac h1dot
    (by intro c hc; simp at hc; subst hc; exact ⟨by decide, by decide⟩)]
  have hg2head : ∀ c, (numStr g2).head? = some c → c.isWhitespace = false := by
    intro c hc
    exact numStr_chars g2 h2dig h2frac c (List.mem_of_mem_head? (by simp [hc]))
  have hdrop := (takeWhile_all_append (p := Char.isWhitespace) ws (numStr g2) hws hg2head).2
  have h2 := matchNumber_exact g2 [] h2d h2dig h2frac h2dot (by intro c hc; simp at hc)
  rw [List.append_nil] at h2
  simp [hdrop, h2]

/-- The full coordinate-pair input: two signed decimal groups separated by a
comma and optional whitespace. -/
def coordStr (g1 : NumMatch) (ws : List Char) (g2 : NumMatch) : List Char :=
  numStr g1 ++ [','] ++ ws ++ numStr g2

/-- The claim-side decimal reading of a signed decimal numeral. -/
def decValue (neg : Bool) (d f : List Char) : ℚ :=
  (if neg then -1 else 1) *
    ((digitsToNat d : ℚ) + (digitsToNat f : ℚ) / (10 : ℚ) ^ f.length)

lemma pyFloat_eq_decValue (m : NumMatch) :
    pyFloatOfMatch m = decValue m.neg m.intDigits m.fracDigits := by
  unfold pyFloatOfMatch decValue
  cases hn : m.neg <;> simp

lemma coordStr_strip (g1 g2 : NumMatch) (ws : List Char)
    (h1d : g1.intDigits ≠ []) (h1dig : ∀ c ∈ g1.intDigits, c.isDigit = true)
    (h1frac : ∀ c ∈ g1.fracDigits, c.isDigit = true)
    (h2d : g2.intDigits ≠ []) (h2dig : ∀ c ∈ g2.intDigits, c.isDigit = true)
    (h2frac : ∀ c ∈ g2.fracDigits, c.isDigit = true) :
    pyStrip (coordStr g1 ws g2) = coordStr g1 ws g2 := by
  apply pyStrip_eq_self
  · intro c hc
    unfold coordStr at hc
    have hne := numStr_ne_nil g1 h1d
    rw [List.append_assoc, List.append_assoc, List.head?_append] at hc
    cases h : (numStr g1).head? with
    | none => exact absurd (List.head?_eq_none_iff.mp h) hne
    | some a =>
      rw [h, Option.or_some] at hc
      have hc' : (numStr g1).head? = some c := by
        rw [h]; exact congrArg some (Option.some.inj hc)
      exact numStr_chars g1 h1dig h1frac c (List.mem_of_mem_head? (by simp [hc']))
  · intro c hc
    unfold coordStr at hc
    have hne := numStr_ne_nil g2 h2d
    rw [List.getLast?_append] at hc
    cases h : (numStr g2).getLast? with
    | none => exact absurd (List.getLast?_eq_none_iff.mp h) hne
    | some a =>
      rw [h, Option.or_some] at hc
      have hc' : (numStr g2).getLast? = some c := by
        rw [h]; exact congrArg some (Option.some.inj hc)
      have hmem : c ∈ numStr g2 := by
        have := List.mem_of_mem_head? (l := (numStr g2).reverse) (a := c)
          (by simp [List.head?_reverse, hc'])
        simpa using this
      exact numStr_chars g2 h2dig h2frac c hmem

/-- Claim C7 (amended): for every input built from two decimal numerals —
each an optional MINUS sign (the pattern accepts no plus sign), a non-empty
digit run, and an optional fractional part — separated by a comma and
optional whitespace: when both decimal values satisfy the coordinate ranges,
`parse_location_input` returns the coordinates result carrying exactly those
values and the stripped query; when either value is out of range, the same
input falls through to place-name parsing. -/
theorem claim_C7_coordinate_parsing (g1 g2 : NumMatch) (ws : List Char)
    (h1d : g1.intDigits ≠ []) (h1dig : ∀ c ∈ g1.intDigits, c.isDigit = true)
    (h1frac : ∀ c ∈ g1.fracDigits, c.isDigit = true)
    (h1dot : g1.hasDot = false → g1.fracDigits = [])
    (h2d : g2.intDigits ≠ []) (h2dig : ∀ c ∈ g2.intDigits, c.isDigit = true)
    (h2frac : ∀ c ∈ g2.fracDigits, c.isDigit = true)
    (h2dot : g2.hasDot = false → g2.fracDigits = [])
    (hws : ∀ c ∈ ws, c.isWhitespace = true) :
    (validate_coordinates (decValue g1.neg g1.intDigits g1.fracDigits)
        (decValue g2.neg g2.intDigits g2.fracDigits) = true →
      parse_location_input (coordStr g1 ws g2) =
        .coordinates (decValue g1.neg g1.intDigits g1.fracDigits)
          (decValue g2.neg g2.intDigits g2.fracDigits) (coordStr g1 ws g2)) ∧
    (validate_coordinates (decValue g1.neg g1.intDigits g1.fracDigits)
        (decValue g2.neg g2.intDigits g2.fracDigits) = false →
      parse_location_input (coordStr g1 ws g2) = parse_place_name (coordStr g1 ws g2)) := by
  have hstrip := coordStr_strip g1 g2 ws h1d h1dig h1frac h2d h2dig h2frac
  have hmatch : coordRegexMatch (coordStr g1 ws g2) = some (g1, g2) :=
    coordRegexMatch_exact g1 g2 ws h1d h1dig h1frac h1dot h2d h2dig h2frac h2dot hws
  constructor <;> intro hv
  · unfold parse_location_input
    rw [hstrip]
    simp only [hmatch, pyFloat_eq_decValue]
    rw [if_pos hv]
  · unfold parse_location_input
    rw [hstrip]
    simp only [hmatch, pyFloat_eq_decValue]
    rw [if_neg (by simp [hv])]

/-- Witness for C7 (amended): the in-range input `40,-74`. -/
theorem claim_C7_coordinate_parsing_witness :
    parse_location_input (coordStr ⟨false, ['4', '0'], false, []⟩ []
        ⟨true, ['7', '4'], false, []⟩) =
      .coordinates 40 (-74)
        (coordStr ⟨false, ['4', '0'], false, []⟩ [] ⟨true, ['7', '4'], false, []⟩) := by
  have e1 : decValue false ['4', '0'] [] = 40 := by
    simp [decValue, show digitsToNat ['4', '0'] = 40 from rfl,
      show digitsToNat ([] : List Char) = 0 from rfl]
  have e2 : decValue true ['7', '4'] [] = -74 := by
    simp [decValue, show digitsToNat ['7', '4'] = 74 from rfl,
      show digitsToNat ([] : List Char) = 0 from rfl]
  have h := (claim_C7_coordinate_parsing ⟨false, ['4', '0'], false, []⟩
    ⟨true, ['7', '4'], false, []⟩ [] (by decide) (by decide) (by decide) (by decide)
    (by decide) (by decide) (by decide) (by decide) (by decide)).1
    (by show validate_coordinates (decValue false ['4', '0'] [])
          (decValue true ['7', '4'] []) = true
        rw [e1, e2]; decide)
  have h' : parse_location_input (coordStr ⟨false, ['4', '0'], false, []⟩ []
      ⟨true, ['7', '4'], false, []⟩) =
    .coordinates (decValue false ['4', '0'] []) (decValue true ['7', '4'] [])
      (coordStr ⟨false, ['4', '0'], false, []⟩ [] ⟨true, ['7', '4'], false, []⟩) := h
  rw [e1, e2] at h'
  exact h'

/-- Claim C7 is false as stated for plus-signed numbers: `+40.7,-74.0` is a
pair of in-range signed decimals separated by a comma, yet the pattern
`-?\d+\.?\d*` rejects the `+` sign, so the input falls through to place-name
parsing instead of producing the coordinates result. -/
theorem claim_C7_counterexample :
    parse_location_input "+40.7,-74.0".data =
      .place "+40.7".data "-74.0".data [] "+40.7,-74.0".data ∧
    parse_location_input "+40.7,-74.0".data ≠
      .coordinates (407 / 10) (-(74 : ℚ)) "+40.7,-74.0".data := by
  have hA : parse_location_input "+40.7,-74.0".data =
      .place "+40.7".data "-74.0".data [] "+40.7,-74.0".data := by decide
  refine ⟨hA, ?_⟩
  rw [hA]
  intro h
  exact ParsedLocation.noConfusion h

end WeatherBot
